import Mathlib

/-!
Shallow embedding of the interactive code playground component
(src/components/code-playground.tsx) of the js-interview-questions
repository.

The component keeps two pieces of React state, `code` (the editable
source buffer, initialised from the `initialCode` prop) and `output`
(the last displayed result, initialised to the empty string).  Its
`runCode` handler executes the buffer with `new Function(code)()`
inside a try/catch: on normal return it stores `String(result)` and
fires a success toast; on any thrown exception (from compiling the
source or from running it) it stores `String(error)` and fires an
error toast.  The `copyCode` handler fires
`navigator.clipboard.writeText(code)` (never inspecting the returned
promise) and immediately fires a success toast.  The editor change
handler sets the buffer with `setCode(value || "")`.  The output
panel is rendered in the JSX only when `output` is truthy, i.e.
non-empty.

`new Function(code)()` is a call into the host JavaScript engine: the
snippet runs in global (sloppy-mode) scope with full access to the
real global object and the real console.  We model one invocation of
the engine by an `EngineBehavior`: either it completes — having
printed some lines to the real console and written some host
globals — returning a value or throwing an error object, or it never
completes (`hangs`, e.g. a snippet with an infinite loop).  The
component itself adds no isolation, no timeout, no console capture
and no input validation; all of that is visible in the definitions
below, which are transcribed from the source.
-/

namespace CodePlayground

/-- A JavaScript value, restricted to the primitive shapes the modelled
snippets produce.  Only its `String(...)` image matters to the component. -/
inductive JSValue where
  | undef
  | null
  | bool (b : Bool)
  | num (n : Int)
  | str (s : String)
  deriving DecidableEq, Repr

/-- Image of a primitive value under `String(...)`, per the ECMAScript ToString rules on
these shapes: undefined, null and booleans print their keyword, integers
print in decimal, strings pass through unquoted. -/
def JSValue.jsToString : JSValue → String
  | JSValue.undef => "undefined"
  | JSValue.null => "null"
  | JSValue.bool b => if b then "true" else "false"
  | JSValue.num n => toString n
  | JSValue.str s => s

/-- A thrown JavaScript `Error` object, reduced to the two fields that
`String(error)` consults. -/
structure JSError where
  name : String
  message : String
  deriving DecidableEq, Repr

/-- Image of an `Error` object under `String(...)`: `Error.prototype.toString` returns
the message alone when the name is empty, the name alone when the message
is empty, and otherwise the name, a colon-space separator, and the
message. -/
def JSError.jsToString (e : JSError) : String :=
  if e.message = "" then e.name
  else if e.name = "" then e.message
  else e.name ++ ": " ++ e.message

/-- How one completed engine invocation ended: a returned value or a
thrown error.  A syntax error raised while `new Function` compiles the
source and a runtime error raised while the compiled function runs both
surface to the component as the `err` case. -/
inductive EvalResult where
  | ok (v : JSValue)
  | err (e : JSError)
  deriving DecidableEq, Repr

/-- The observable behavior of one `new Function(code)()` invocation:
either the engine completes — having printed `logs` to the real console
and performed `globalWrites` on the host global object, then returning or
throwing per `r` — or it never completes (`hangs`). -/
inductive EngineBehavior where
  | completes (logs : List String) (globalWrites : List (String × JSValue)) (r : EvalResult)
  | hangs
  deriving DecidableEq, Repr

/-- Ambient host state the executed snippet can reach: the global object
(as an association list of bindings) and the lines printed so far to the
real console. -/
structure HostState where
  globals : List (String × JSValue)
  console : List String
  deriving DecidableEq, Repr

/-- Update one binding of the host global object. -/
def setGlobal (g : List (String × JSValue)) (k : String) (v : JSValue) :
    List (String × JSValue) :=
  match g with
  | [] => [(k, v)]
  | (k1, v1) :: rest => if k1 = k then (k, v) :: rest else (k1, v1) :: setGlobal rest k v

/-- Apply the global writes a snippet performed, in order. -/
def applyWrites (g : List (String × JSValue)) (ws : List (String × JSValue)) :
    List (String × JSValue) :=
  match ws with
  | [] => g
  | (k, v) :: rest => applyWrites (setGlobal g k v) rest

/-- The host state after a completed engine invocation: the console lines
the snippet printed reach the real console and its global writes land on
the host global object, because `new Function` gives the snippet the real
globals — the component interposes nothing. -/
def afterEffects (hst : HostState) (logs : List String)
    (ws : List (String × JSValue)) : HostState :=
  { globals := applyWrites hst.globals ws, console := hst.console ++ logs }

/-- The React state of one `CodePlayground` instance: the editable source
buffer `code` and the displayed `output` string. -/
structure PlaygroundState where
  code : String
  output : String
  deriving DecidableEq, Repr

/-- The initial component state: `useState(initialCode)` for the buffer and
`useState("")` for the output. -/
def initialState (initialCode : String) : PlaygroundState :=
  { code := initialCode, output := "" }

/-- A toast notification fired by a handler. -/
inductive Toast where
  | success (msg : String)
  | error (msg : String)
  deriving DecidableEq, Repr

/-- Everything observable when `runCode` returns: the host state after the
execution, the new component state, and the toast that was fired. -/
structure RunResult where
  host : HostState
  state : PlaygroundState
  toast : Toast
  deriving DecidableEq, Repr

/-- Shallow embedding of the `runCode` handler, given the behavior `b` of
the engine on the current buffer.  The try block runs
`new Function(code)()`; on normal completion the handler stores
`String(result)` and fires the success toast, and the catch arm of the
try/catch turns any thrown exception — compile-time or runtime — into
`setOutput(String(error))` plus the error toast.  When the engine never
completes, `runCode` never returns and nothing below the call runs:
that is the `none` case (the page is frozen; there is no timeout). -/
def runCodeWith (b : EngineBehavior) (hst : HostState) (s : PlaygroundState) :
    Option RunResult :=
  match b with
  | EngineBehavior.hangs => none
  | EngineBehavior.completes logs ws (EvalResult.ok v) =>
      some { host := afterEffects hst logs ws,
             state := { s with output := v.jsToString },
             toast := Toast.success "Code executed successfully!" }
  | EngineBehavior.completes logs ws (EvalResult.err e) =>
      some { host := afterEffects hst logs ws,
             state := { s with output := e.jsToString },
             toast := Toast.error "Error executing code" }

/-- Wrapper running `runCode` with the engine applied to the current buffer: the snippet
that is executed is exactly `s.code`, the buffer content at the moment of
the call. -/
def runCodeOn (engine : String → EngineBehavior) (hst : HostState)
    (s : PlaygroundState) : Option RunResult :=
  runCodeWith (engine s.code) hst s

/-- The display text of a completed run, by the two arms of the
try/catch. -/
def resultText : EvalResult → String
  | EvalResult.ok v => v.jsToString
  | EvalResult.err e => e.jsToString

/-- The toast of a completed run, by the two arms of the try/catch. -/
def resultToast : EvalResult → Toast
  | EvalResult.ok _ => Toast.success "Code executed successfully!"
  | EvalResult.err _ => Toast.error "Error executing code"

/-- The output panel is rendered only when `output` is truthy: the JSX
wraps it in `output && ...`, so an empty output string shows nothing. -/
def outputVisible (s : PlaygroundState) : Bool :=
  s.output != ""

/-- Shallow embedding of the editor change handler
`(value) => setCode(value || "")`: the undefined case and the empty
string are both replaced by the empty string (the only falsy string),
any other string is stored as is.  Nothing else changes. -/
def onEdit (value : Option String) (s : PlaygroundState) : PlaygroundState :=
  { s with code := match value with
      | some t => if t = "" then "" else t
      | none => "" }

/-- Everything observable when `copyCode` returns: the text handed to
`navigator.clipboard.writeText`, the toast fired, and the component
state afterwards. -/
structure CopyResult where
  clipboardRequest : String
  toast : Toast
  state : PlaygroundState
  deriving DecidableEq, Repr

/-- Shallow embedding of the `copyCode` handler: it fires
`navigator.clipboard.writeText(code)` and immediately fires the success
toast.  The promise returned by `writeText` is never awaited or
inspected, so whether the asynchronous clipboard write actually succeeds
(`clipboardOk`) influences nothing the handler does, and the component
state is untouched. -/
def copyCode (clipboardOk : Bool) (s : PlaygroundState) : CopyResult :=
  { clipboardRequest := s.code,
    toast := Toast.success "Code copied to clipboard!",
    state := s }

/-- The empty host: no tracked global bindings, nothing printed yet. -/
def host0 : HostState :=
  { globals := [], console := [] }

/-- The concrete snippets used by the specification examples. -/
def emptySnippet : String := ""

/-- Snippet returning the number 4. -/
def addSnippet : String := "return 2 + 2;"

/-- Snippet returning the empty string. -/
def emptyStrSnippet : String := "return \x27\x27;"

/-- Snippet throwing `new Error` with message bad. -/
def throwSnippet : String := "throw new Error(\x27bad\x27);"

/-- Snippet that loops forever. -/
def loopSnippet : String := "while(true)\x7b\x7d"

/-- Snippet that prints to the console and writes a host global. -/
def leakSnippet : String := "console.log(\x27hi\x27); globalThis.leak = 1;"

/-- The behavior of `leakSnippet`: it prints the line hi to the console,
sets the global binding leak to the number 1, and returns undefined. -/
def leakBehavior : EngineBehavior :=
  EngineBehavior.completes ["hi"] [("leak", JSValue.num 1)] (EvalResult.ok JSValue.undef)

/-- The documented behavior of the host JavaScript engine, via
`new Function(src)()`, on the concrete snippets above (the repository
delegates execution wholesale to the engine; these entries transcribe the
ECMAScript semantics of each snippet).  `new Function("")()` compiles an
empty body and returns undefined; `return 2 + 2;` returns the number 4;
a `return` of two quotes returns the empty string; throwing
`new Error` with message bad throws an Error object named Error;
`while(true)` with an empty body never completes; `leakSnippet` behaves
as `leakBehavior`.  Snippets outside this table are not modelled
(`none`). -/
def jsEngine (src : String) : Option EngineBehavior :=
  if src = emptySnippet then
    some (EngineBehavior.completes [] [] (EvalResult.ok JSValue.undef))
  else if src = addSnippet then
    some (EngineBehavior.completes [] [] (EvalResult.ok (JSValue.num 4)))
  else if src = emptyStrSnippet then
    some (EngineBehavior.completes [] [] (EvalResult.ok (JSValue.str "")))
  else if src = throwSnippet then
    some (EngineBehavior.completes [] [] (EvalResult.err ⟨"Error", "bad"⟩))
  else if src = loopSnippet then
    some EngineBehavior.hangs
  else if src = leakSnippet then
    some leakBehavior
  else
    none

/-- Spec-side definition, from the specification text of the Output
Formatter: the display the spec prescribes for a `Thrown(msg, kind)`
outcome is the kind label, a colon-space separator, and the message. -/
def specThrownDisplay (kind msg : String) : String :=
  kind ++ ": " ++ msg

/-- Claim C1: the specification says that a run exceeding the timeout
budget yields the TimedOut outcome and the execution is terminated.  The
code has no timeout at all: on the infinite-loop snippet the engine never
completes, and `runCode` then never returns — the caller hangs, and no
outcome, display update or toast is ever produced (in particular no
TimedOut outcome). -/
theorem c1_no_timeout_run_hangs :
    jsEngine loopSnippet = some EngineBehavior.hangs ∧
    ∀ (hst : HostState) (s : PlaygroundState),
      runCodeWith EngineBehavior.hangs hst s = none :=
  ⟨by decide, fun _ _ => rfl⟩

/-- Claim C2: every exception thrown while compiling the source (syntax
error from `new Function`) or while running it is caught by the try/catch
in `runCode` and converted into a reported outcome — the stringified error
becomes the output and an error toast fires; no exception escapes the
handler to the caller or the UI. -/
theorem c2_exceptions_caught (logs : List String)
    (ws : List (String × JSValue)) (e : JSError) (hst : HostState)
    (s : PlaygroundState) :
    runCodeWith (EngineBehavior.completes logs ws (EvalResult.err e)) hst s =
      some { host := afterEffects hst logs ws,
             state := { s with output := e.jsToString },
             toast := Toast.error "Error executing code" } :=
  rfl

/-- Claim C3 counterexample: running the empty source does not produce a
Thrown outcome with message empty source — the code has no empty-source
check.  The engine compiles the empty body and returns undefined, so the
run completes with output undefined and a success toast, which differs
from the display the specification prescribes for the claimed outcome. -/
theorem c3_empty_source_cex :
    jsEngine emptySnippet =
      some (EngineBehavior.completes [] [] (EvalResult.ok JSValue.undef)) ∧
    runCodeWith (EngineBehavior.completes [] [] (EvalResult.ok JSValue.undef))
        host0 (initialState emptySnippet) =
      some { host := host0,
             state := { code := emptySnippet, output := "undefined" },
             toast := Toast.success "Code executed successfully!" } ∧
    "undefined" ≠ specThrownDisplay "SyntaxError" "empty source" := by
  decide

/-- Claim C3 amended: `runCode` performs no emptiness check on the source;
the empty source is executed like any other snippet, the engine returns
undefined, and the run completes with output undefined and a success
toast. -/
theorem c3_empty_source_executes (hst : HostState) (out : String) :
    jsEngine emptySnippet =
      some (EngineBehavior.completes [] [] (EvalResult.ok JSValue.undef)) ∧
    runCodeWith (EngineBehavior.completes [] [] (EvalResult.ok JSValue.undef))
        hst { code := emptySnippet, output := out } =
      some { host := afterEffects hst [] [],
             state := { code := emptySnippet, output := "undefined" },
             toast := Toast.success "Code executed successfully!" } :=
  ⟨by decide, rfl⟩

/-- Claim C4 counterexample: the snippet throwing `new Error` with message
bad displays Error colon bad — `String(error)` uses the JavaScript name of
the error object — and not the RuntimeError label the claim prescribes. -/
theorem c4_thrown_display_cex :
    jsEngine throwSnippet =
      some (EngineBehavior.completes [] [] (EvalResult.err ⟨"Error", "bad"⟩)) ∧
    runCodeWith (EngineBehavior.completes [] [] (EvalResult.err ⟨"Error", "bad"⟩))
        host0 (initialState throwSnippet) =
      some { host := host0,
             state := { code := throwSnippet, output := "Error: bad" },
             toast := Toast.error "Error executing code" } ∧
    "Error: bad" ≠ specThrownDisplay "RuntimeError" "bad" := by
  decide

/-- Claim C4 amended: for a thrown error with non-empty name and message,
the display text is `String(error)`, i.e. the name of the error object, a
colon-space separator, and its message — so it starts with the JavaScript
name of the error (not a kind taxonomy of the component, which has none)
and contains the message. -/
theorem c4_thrown_display_is_js_string (logs : List String)
    (ws : List (String × JSValue)) (e : JSError) (hst : HostState)
    (s : PlaygroundState) (hn : e.name ≠ "") (hm : e.message ≠ "") :
    runCodeWith (EngineBehavior.completes logs ws (EvalResult.err e)) hst s =
      some { host := afterEffects hst logs ws,
             state := { s with output := e.name ++ ": " ++ e.message },
             toast := Toast.error "Error executing code" } ∧
    (∃ rest, e.name ++ ": " ++ e.message = e.name ++ rest) ∧
    (∃ pre, e.name ++ ": " ++ e.message = pre ++ e.message) := by
  have hts : e.jsToString = e.name ++ ": " ++ e.message := by
    rw [JSError.jsToString, if_neg hm, if_neg hn]
  refine ⟨?_, ⟨": " ++ e.message, ?_⟩, ⟨e.name ++ ": ", rfl⟩⟩
  · simp only [runCodeWith, hts]
  · rw [String.append_assoc]

/-- Claim C4 amended, witness at the concrete example: the thrown Error
named Error with message bad displays its name and message. -/
theorem c4_thrown_display_is_js_string_witness :
    runCodeWith (EngineBehavior.completes [] [] (EvalResult.err ⟨"Error", "bad"⟩))
        host0 (initialState throwSnippet) =
      some { host := afterEffects host0 [] [],
             state := { code := throwSnippet, output := "Error" ++ ": " ++ "bad" },
             toast := Toast.error "Error executing code" } :=
  (c4_thrown_display_is_js_string [] [] ⟨"Error", "bad"⟩ host0
    (initialState throwSnippet) (by decide) (by decide)).1

/-- Claim C5: the specification says executing a snippet has no side
effects on the ambient host state and that console calls are captured
into a buffer.  The code interposes nothing: on the leaking snippet the
console line reaches the real console and the global write lands on the
host global object, so the host state after the run differs from the
host state before. -/
theorem c5_host_effects_leak :
    jsEngine leakSnippet = some leakBehavior ∧
    runCodeWith leakBehavior host0 (initialState leakSnippet) =
      some { host := { globals := [("leak", JSValue.num 1)], console := ["hi"] },
             state := { code := leakSnippet, output := "undefined" },
             toast := Toast.success "Code executed successfully!" } ∧
    ({ globals := [("leak", JSValue.num 1)], console := ["hi"] } : HostState) ≠ host0 := by
  decide

/-- Claim C7: a run whose execution returns a value stores exactly the
stringification of that value as the output together with the success
toast; in particular the snippet returning 2 + 2 produces the number 4,
whose stringification is the digit 4. -/
theorem c7_value_display (logs : List String) (ws : List (String × JSValue))
    (v : JSValue) (hst : HostState) (s : PlaygroundState) :
    runCodeWith (EngineBehavior.completes logs ws (EvalResult.ok v)) hst s =
      some { host := afterEffects hst logs ws,
             state := { s with output := v.jsToString },
             toast := Toast.success "Code executed successfully!" } ∧
    jsEngine addSnippet =
      some (EngineBehavior.completes [] [] (EvalResult.ok (JSValue.num 4))) ∧
    JSValue.jsToString (JSValue.num 4) = "4" :=
  ⟨rfl, by decide, by decide⟩

/-- Claim C8 counterexample: a run can complete and leave a blank display.
The snippet returning the empty string completes successfully, the stored
output is the empty string, and the output panel — rendered only when the
output is truthy — shows nothing after this completed run. -/
theorem c8_blank_display_cex :
    jsEngine emptyStrSnippet =
      some (EngineBehavior.completes [] [] (EvalResult.ok (JSValue.str ""))) ∧
    runCodeWith (EngineBehavior.completes [] [] (EvalResult.ok (JSValue.str "")))
        host0 (initialState emptyStrSnippet) =
      some { host := host0,
             state := { code := emptyStrSnippet, output := "" },
             toast := Toast.success "Code executed successfully!" } ∧
    outputVisible { code := emptyStrSnippet, output := "" } = false := by
  decide

/-- Claim C8 amended: every completed run produces exactly one outcome —
a single output string (the value arm or the error arm of the try/catch,
never both) and a single toast — but the output panel is rendered only
when that string is non-empty, so a result that stringifies to the empty
string leaves the output area blank after a completed run. -/
theorem c8_one_outcome_blank_iff_empty (logs : List String)
    (ws : List (String × JSValue)) (r : EvalResult) (hst : HostState)
    (s : PlaygroundState) :
    runCodeWith (EngineBehavior.completes logs ws r) hst s =
      some { host := afterEffects hst logs ws,
             state := { s with output := resultText r },
             toast := resultToast r } ∧
    outputVisible { s with output := resultText r } = (resultText r != "") := by
  cases r with
  | ok v => exact ⟨rfl, rfl⟩
  | err e => exact ⟨rfl, rfl⟩

/-- Claim C9: after an edit with text x the buffer equals x and the output
is untouched; a subsequent run applies the engine to exactly the snapshot
x that was the buffer content at the moment of the call, and a later edit
with any text leaves the displayed output of that run unchanged. -/
theorem c9_edit_snapshot_round_trip (engine : String → EngineBehavior)
    (x : String) (y : Option String) (hst : HostState) (s : PlaygroundState) :
    (onEdit (some x) s).code = x ∧
    (onEdit (some x) s).output = s.output ∧
    runCodeOn engine hst (onEdit (some x) s) =
      runCodeWith (engine x) hst (onEdit (some x) s) ∧
    (runCodeOn engine hst (onEdit (some x) s)).map
        (fun res => (onEdit y res.state).output) =
      (runCodeOn engine hst (onEdit (some x) s)).map
        (fun res => res.state.output) := by
  have hcode : (onEdit (some x) s).code = x := by
    by_cases hx : x = "" <;> simp [onEdit, hx]
  refine ⟨hcode, rfl, ?_, ?_⟩
  · simp only [runCodeOn, hcode]
  · cases h : runCodeOn engine hst (onEdit (some x) s) with
    | none => rfl
    | some res => rfl

/-- Claim C10: the copy handler hands exactly the current buffer to the
clipboard, fires the success toast unconditionally — the result of the
asynchronous clipboard write is never inspected, so the toast is the same
whether the write succeeds or fails — and leaves the component state
(buffer and output) unchanged. -/
theorem c10_copy_unconditional_success (clipboardOk : Bool)
    (s : PlaygroundState) :
    (copyCode clipboardOk s).toast = Toast.success "Code copied to clipboard!" ∧
    (copyCode clipboardOk s).state = s ∧
    (copyCode clipboardOk s).clipboardRequest = s.code :=
  ⟨rfl, rfl, rfl⟩

end CodePlayground
